import Mathlib

/-!
Shallow embedding of `src/server.js` (backend_algologia), a REST backend for a
medical-appointment booking application.  The source file contains two
revisions of the server, separated by a document marker: the first revision
(lines 1-210) and the final revision (lines 211-631).  Handlers are embedded
as pure functions over an explicit database state `DB`; the database tables
are lists of rows, SQL `SELECT ... WHERE` is `List.filter`/`List.find?`,
`INSERT` appends a row, `DELETE ... WHERE` filters rows out.  Auto-assigned
ids are modelled by `next*Id` counters in `DB`.  Money amounts (subtotal,
VAT, total, prices) are modelled as rationals (`Rat`), so "within rounding
tolerance" becomes exact equality.

The external libraries `jsonwebtoken` and `bcrypt` are modelled by executable
stand-ins (`jwtSign`/`jwtVerify`, `bcryptHash`/`bcryptCompare`) that capture
the contracts the handlers rely on: a token signed with a secret verifies
under the same secret until its expiry and decodes to the signed claims; a
bcrypt hash of a plaintext compares true against that plaintext and is never
equal to it.
-/

namespace Algologia

/-! ## Data model (section 3 of the spec; SQL tables of server.js) -/

/-- A row of the `usuarios` table. -/
structure Usuario where
  id : Nat
  nombres : String
  apellidos : String
  telefono : String
  email : String
  fecha_nacimiento : String
  tipo_sangre_id : Nat
  usuario : String
  contrasena : String
  rol : String
deriving DecidableEq, Repr

/-- A row of the `carrito` table (CartEntry). -/
structure CartEntry where
  id : Nat
  usuario_id : Nat
  patologia_id : Nat
  fecha : String
  hora_id : Nat
deriving DecidableEq, Repr

/-- A row of the `citas` table (confirmed Appointment). -/
structure Cita where
  id : Nat
  usuario_id : Nat
  patologia_id : Nat
  fecha : String
  hora_id : Nat
  precio : Rat
deriving DecidableEq, Repr

/-- A row of the `facturas` table (Invoice).  `fecha` is not in the INSERT
column list at checkout: the column default (the current date) fills it. -/
structure Factura where
  id : Nat
  usuario_id : Nat
  fecha : String
  subtotal : Rat
  iva : Rat
  total : Rat
deriving DecidableEq, Repr

/-- A row of the `detalle_factura` table (InvoiceLine). -/
structure Detalle where
  factura_id : Nat
  cita_id : Nat
deriving DecidableEq, Repr

/-- A row of the `soporte` table (SupportMessage); `fecha_envio` is filled by
a column default (auto-assigned timestamp). -/
structure Soporte where
  id : Nat
  usuario_id : Nat
  asunto : String
  mensaje : String
  fecha_envio : String
deriving DecidableEq, Repr

/-- The relational store the handlers query.  `defaultRol` models the schema
default for the `rol` column (registration inserts no `rol`, so the new row
gets the column default); `hoy` models the current-date column default used
by `facturas.fecha`. -/
structure DB where
  usuarios : List Usuario
  patologias : List (Nat × String)
  horarios : List (Nat × String)
  carrito : List CartEntry
  citas : List Cita
  facturas : List Factura
  detalle_factura : List Detalle
  soporte : List Soporte
  configuracion : List (String × String)
  defaultRol : String
  hoy : String
  nextUsuarioId : Nat
  nextCarritoId : Nat
  nextCitaId : Nat
  nextFacturaId : Nat
  nextPatologiaId : Nat
  nextHorarioId : Nat
deriving DecidableEq, Repr

/-! ## Model of the bcrypt library

`bcrypt.hash(p, 10)` produces a salted adaptive hash; `bcrypt.compare(p, h)`
succeeds exactly when `h` is a bcrypt hash of `p`.  The model keeps the one
property the handlers rely on: a hash is recognisable, compares true against
its own plaintext, and is never equal to the plaintext (it carries the
`$2b$<cost>$` prefix a real bcrypt digest has). -/

/-- Model of `bcrypt.hash(p, cost)`. -/
def bcryptHash (cost : Nat) (p : String) : String :=
  "$2b$" ++ toString cost ++ "$" ++ p

/-- Model of `bcrypt.compare(p, h)`: true iff `h` is the stored hash of `p`
(the source always hashes with cost 10). -/
def bcryptCompare (p h : String) : Bool :=
  h == bcryptHash 10 p

/-! ## Model of the jsonwebtoken library

`jwt.sign({id, rol}, secret, {expiresIn:'8h'})` produces a token whose payload
carries the claims plus an expiry timestamp 8 hours (28800 seconds) after the
issue time, signed with the secret; `jwt.verify(token, secret)` succeeds iff
the signature matches the secret and the token has not expired, and returns
the decoded claims. -/

/-- A decoded JWT: the signed claims (`id`, `rol`), the expiry timestamp
(seconds), and the signature over payload and secret. -/
structure Jwt where
  id : Nat
  rol : String
  exp : Nat
  sig : Nat
deriving DecidableEq, Repr

/-- Model of the HMAC signature over the token payload with the signing
secret (an injective pairing of the payload fields with the secret). -/
def jwtSig (secret : Nat) (id : Nat) (rol : String) (exp : Nat) : Nat :=
  (Nat.pair secret (Nat.pair id (Nat.pair exp rol.length))).succ

/-- Model of `jwt.sign({id, rol}, secret, {expiresIn:'8h'})` at issue time
`now` (seconds): expiry is 8 hours after issue. -/
def jwtSign (secret : Nat) (id : Nat) (rol : String) (now : Nat) : Jwt :=
  { id := id, rol := rol, exp := now + 8 * 3600
    sig := jwtSig secret id rol (now + 8 * 3600) }

/-- Model of `jwt.verify(token, secret)` at clock time `now`: succeeds with
the decoded claims iff the signature matches and the token is not expired. -/
def jwtVerify (secret : Nat) (now : Nat) (t : Jwt) : Option (Nat × String) :=
  if t.sig = jwtSig secret t.id t.rol t.exp ∧ now < t.exp then
    some (t.id, t.rol)
  else
    none

/-! ## verifyToken middleware (both revisions; lines 17-26 and 228-237) -/

/-- Outcome of the `verifyToken` middleware: no `authorization` header at all
(401), `jwt.verify` failed (403), or the decoded claims are attached to the
request context as `req.usuario`. -/
inductive AuthResult where
  | noToken
  | invalid
  | ok (id : Nat) (rol : String)
deriving DecidableEq, Repr

/-- HTTP status of each middleware outcome (`ok` lets the handler run; its
status is whatever the handler answers, recorded here as 200). -/
def AuthResult.status : AuthResult → Nat
  | .noToken => 401
  | .invalid => 403
  | .ok _ _ => 200

/-- The `verifyToken` middleware: the raw token value from the
`authorization` header (`none` when the header is missing). -/
def verifyToken (secret now : Nat) (authHeader : Option Jwt) : AuthResult :=
  match authHeader with
  | none => .noToken
  | some t =>
    match jwtVerify secret now t with
    | none => .invalid
    | some (id, rol) => .ok id rol

/-! ## POST /api/usuarios/registrar (final revision, lines 271-279) -/

/-- Registration input: the profile fields destructured from the body. -/
structure RegistroBody where
  nombres : String
  apellidos : String
  telefono : String
  email : String
  fecha_nacimiento : String
  tipo_sangre_id : Nat
  usuario : String
  contrasena : String
deriving Repr

/-- Handler for `POST /api/usuarios/registrar`: hashes the plaintext secret with bcrypt
(cost 10) and inserts the user row; the `rol` column is not in the INSERT
column list, so the row receives the schema default. -/
def registrar (db : DB) (b : RegistroBody) : DB :=
  let hashed := bcryptHash 10 b.contrasena
  { db with
    usuarios := db.usuarios ++
      [{ id := db.nextUsuarioId, nombres := b.nombres, apellidos := b.apellidos,
         telefono := b.telefono, email := b.email,
         fecha_nacimiento := b.fecha_nacimiento,
         tipo_sangre_id := b.tipo_sangre_id, usuario := b.usuario,
         contrasena := hashed, rol := db.defaultRol }]
    nextUsuarioId := db.nextUsuarioId + 1 }

/-! ## POST /api/usuarios/login (final revision, lines 282-298) -/

/-- Outcome of the login handler: 404 when no row matches the handle, 401
when `bcrypt.compare` fails, otherwise the signed token plus the user's
`nombres`. -/
inductive LoginResult where
  | notFound
  | wrongPassword
  | ok (token : Jwt) (nombres : String)
deriving DecidableEq, Repr

/-- HTTP status of each login outcome. -/
def LoginResult.status : LoginResult → Nat
  | .notFound => 404
  | .wrongPassword => 401
  | .ok _ _ => 200

/-- Handler for `POST /api/usuarios/login`: `SELECT * FROM usuarios WHERE usuario = $1`,
404 when empty; `bcrypt.compare(contrasena, user.contrasena)`, 401 when
false; otherwise `jwt.sign({id, rol}, secret, {expiresIn:'8h'})`. -/
def login (secret now : Nat) (db : DB) (usuario contrasena : String) :
    LoginResult :=
  match db.usuarios.find? (fun u => u.usuario == usuario) with
  | none => .notFound
  | some user =>
    if bcryptCompare contrasena user.contrasena then
      .ok (jwtSign secret user.id user.rol now) user.nombres
    else
      .wrongPassword

/-! ## POST /api/carrito (final revision, lines 300-335) -/

/-- Outcome of add-to-cart: already in the caller's cart (400), slot already
a confirmed appointment for anyone (400), or inserted (200). -/
inductive CarritoAddResult where
  | yaEnCarrito
  | horaReservada
  | added
deriving DecidableEq, Repr

/-- HTTP status of each add-to-cart outcome. -/
def CarritoAddResult.status : CarritoAddResult → Nat
  | .yaEnCarrito => 400
  | .horaReservada => 400
  | .added => 200

/-- Handler for `POST /api/carrito` (final revision): first
`SELECT * FROM carrito WHERE usuario_id = $1 AND fecha = $2 AND hora_id = $3`
(400 when `rowCount > 0`), then
`SELECT * FROM citas WHERE fecha = $1 AND hora_id = $2` — any user —
(400 when `rowCount > 0`), then `INSERT INTO carrito`. -/
def carritoAdd (db : DB) (usuario_id patologia_id : Nat) (fecha : String)
    (hora_id : Nat) : DB × CarritoAddResult :=
  let existeEnCarrito := db.carrito.filter fun c =>
    c.usuario_id == usuario_id && c.fecha == fecha && c.hora_id == hora_id
  if existeEnCarrito.length > 0 then
    (db, .yaEnCarrito)
  else
    let existeConfirmada := db.citas.filter fun c =>
      c.fecha == fecha && c.hora_id == hora_id
    if existeConfirmada.length > 0 then
      (db, .horaReservada)
    else
      ({ db with
          carrito := db.carrito ++
            [{ id := db.nextCarritoId, usuario_id := usuario_id,
               patologia_id := patologia_id, fecha := fecha,
               hora_id := hora_id }]
          nextCarritoId := db.nextCarritoId + 1 },
        .added)

/-! ## POST /api/facturar (final revision, lines 367-425)

The handler reads the supplied `subtotal`, `iva`, `total` from the body,
loads the caller's cart, answers 400 when it is empty, inserts the invoice
with the supplied totals verbatim, then for each cart entry inserts one
confirmed appointment priced `subtotal / citas.rowCount` and one invoice
line — each iteration inside its own try/catch that logs and continues on
failure — and finally deletes the caller's cart rows.

Individual insert failures (database errors caught by the inner try/catch)
are modelled by two oracles indexed by the iteration number: `citaFail i`
makes the appointment INSERT of iteration `i` throw (so neither the
appointment nor its line is created), `detalleFail i` makes the line INSERT
throw (the appointment stays, the line is not created).  The
`if (!cita_id) continue` guard in the source is dead on the success path:
`RETURNING id` always yields the id when the INSERT succeeds. -/

/-- Outcome of checkout: empty cart (400) or success echoing the supplied
total (200). -/
inductive FacturarResult where
  | emptyCart
  | ok (total : Rat)
deriving DecidableEq, Repr

/-- HTTP status of each checkout outcome. -/
def FacturarResult.status : FacturarResult → Nat
  | .emptyCart => 400
  | .ok _ => 200

/-- The per-entry loop of the checkout handler, threading the database:
iteration `i` over entry `c` inserts the appointment (unless `citaFail i`
throws, caught and logged) and then the invoice line (unless `detalleFail i`
throws, caught and logged). -/
def facturarLoop (citaFail detalleFail : Nat → Bool) (usuario_id factura_id :
    Nat) (precio : Rat) : List CartEntry → Nat → DB → DB
  | [], _, db => db
  | c :: rest, i, db =>
    if citaFail i then
      facturarLoop citaFail detalleFail usuario_id factura_id precio rest
        (i + 1) db
    else
      let cita_id := db.nextCitaId
      let db1 : DB :=
        { db with
          citas := db.citas ++
            [{ id := cita_id, usuario_id := usuario_id,
               patologia_id := c.patologia_id, fecha := c.fecha,
               hora_id := c.hora_id, precio := precio }]
          nextCitaId := cita_id + 1 }
      if detalleFail i then
        facturarLoop citaFail detalleFail usuario_id factura_id precio rest
          (i + 1) db1
      else
        facturarLoop citaFail detalleFail usuario_id factura_id precio rest
          (i + 1)
          { db1 with
            detalle_factura := db1.detalle_factura ++
              [{ factura_id := factura_id, cita_id := cita_id }] }

/-- Handler for `POST /api/facturar` (final revision). -/
def facturar (citaFail detalleFail : Nat → Bool) (db : DB) (usuario_id : Nat)
    (subtotal iva total : Rat) : DB × FacturarResult :=
  let citas := db.carrito.filter fun c => c.usuario_id == usuario_id
  if citas.length = 0 then
    (db, .emptyCart)
  else
    let factura_id := db.nextFacturaId
    let db1 : DB :=
      { db with
        facturas := db.facturas ++
          [{ id := factura_id, usuario_id := usuario_id, fecha := db.hoy,
             subtotal := subtotal, iva := iva, total := total }]
        nextFacturaId := factura_id + 1 }
    let precio := subtotal / (citas.length : Rat)
    let db2 := facturarLoop citaFail detalleFail usuario_id factura_id precio
      citas 0 db1
    ({ db2 with
        carrito := db2.carrito.filter fun c => !(c.usuario_id == usuario_id) },
      .ok total)

/-- The oracle for the normal run of checkout: no database insert fails. -/
def noFail : Nat → Bool := fun _ => false

/-! ## Admin routes (final revision, lines 478-615)

Every `/api/admin/*` handler runs behind `verifyToken` and opens with
`if (req.usuario.rol !== 'admin') return res.status(403)` before touching the
database.  Each handler below takes the decoded `rol` claim from the request
context plus its payload and returns the database (unchanged on the 403
path) and a gated result. -/

/-- Result of a role-gated handler: 403 before any database access, or the
handler's payload. -/
inductive Gate (α : Type) where
  | forbidden
  | ok (payload : α)
deriving DecidableEq, Repr

/-- HTTP status of a gated result (the `ok` payload may itself encode a 404,
as in the invoice-detail route). -/
def Gate.status {α : Type} : Gate α → Nat
  | .forbidden => 403
  | .ok _ => 200

/-- Lookup (SELECT) of a name by id from a two-column catalog table. -/
def lookupNombre (l : List (Nat × String)) (id : Nat) : Option String :=
  (l.find? fun p => p.1 == id).map Prod.snd

/-- Handler for `GET /api/admin/usuarios`: projected user rows ordered by id. -/
def adminUsuariosGet (db : DB) (rol : String) :
    DB × Gate (List (Nat × String × String × String × String × String)) :=
  if rol != "admin" then (db, .forbidden)
  else
    (db, .ok ((db.usuarios.map fun u =>
        (u.id, u.nombres, u.apellidos, u.email, u.usuario, u.rol)).mergeSort
      fun a b => a.1 ≤ b.1))

/-- Handler for `DELETE /api/admin/usuarios/:id`. -/
def adminUsuariosDelete (db : DB) (rol : String) (id : Nat) :
    DB × Gate Unit :=
  if rol != "admin" then (db, .forbidden)
  else ({ db with usuarios := db.usuarios.filter fun u => !(u.id == id) },
    .ok ())

/-- Handler for `POST /api/admin/patologias` (the body is destructured before the role
check, but no query precedes it). -/
def adminPatologiasPost (db : DB) (rol : String) (nombre : String) :
    DB × Gate Unit :=
  if rol != "admin" then (db, .forbidden)
  else
    ({ db with
        patologias := db.patologias ++ [(db.nextPatologiaId, nombre)],
        nextPatologiaId := db.nextPatologiaId + 1 }, .ok ())

/-- Handler for `DELETE /api/admin/patologias/:id`. -/
def adminPatologiasDelete (db : DB) (rol : String) (id : Nat) :
    DB × Gate Unit :=
  if rol != "admin" then (db, .forbidden)
  else ({ db with patologias := db.patologias.filter fun p => !(p.1 == id) },
    .ok ())

/-- Handler for `POST /api/admin/horarios`. -/
def adminHorariosPost (db : DB) (rol : String) (hora : String) :
    DB × Gate Unit :=
  if rol != "admin" then (db, .forbidden)
  else
    ({ db with
        horarios := db.horarios ++ [(db.nextHorarioId, hora)],
        nextHorarioId := db.nextHorarioId + 1 }, .ok ())

/-- Handler for `DELETE /api/admin/horarios/:id`. -/
def adminHorariosDelete (db : DB) (rol : String) (id : Nat) :
    DB × Gate Unit :=
  if rol != "admin" then (db, .forbidden)
  else ({ db with horarios := db.horarios.filter fun h => !(h.1 == id) },
    .ok ())

/-- A row of the admin appointment report (`citas` joined with `usuarios`,
`patologias`, `horarios`). -/
structure CitaAdminRow where
  id : Nat
  usuario : String
  patologia : String
  fecha : String
  hora : String
  precio : Rat
deriving DecidableEq, Repr

/-- Handler for `GET /api/admin/citas`: inner join of `citas` with the three reference
tables, ordered by `fecha` then `hora`. -/
def adminCitasGet (db : DB) (rol : String) : DB × Gate (List CitaAdminRow) :=
  if rol != "admin" then (db, .forbidden)
  else
    let rows := db.citas.filterMap fun c =>
      match db.usuarios.find? (fun u => u.id == c.usuario_id),
          lookupNombre db.patologias c.patologia_id,
          lookupNombre db.horarios c.hora_id with
      | some u, some p, some h =>
        some { id := c.id, usuario := u.usuario, patologia := p,
               fecha := c.fecha, hora := h, precio := c.precio }
      | _, _, _ => none
    (db, .ok (rows.mergeSort fun a b =>
      decide (a.fecha < b.fecha ∨ (a.fecha = b.fecha ∧ a.hora ≤ b.hora))))

/-- Handler for `DELETE /api/admin/citas/:id`. -/
def adminCitasDelete (db : DB) (rol : String) (id : Nat) : DB × Gate Unit :=
  if rol != "admin" then (db, .forbidden)
  else ({ db with citas := db.citas.filter fun c => !(c.id == id) }, .ok ())

/-- Handler for `PUT /api/admin/precio`:
`UPDATE configuracion SET valor = $1 WHERE clave = 'precio_cita'`. -/
def adminPrecioPut (db : DB) (rol : String) (nuevo_precio : String) :
    DB × Gate Unit :=
  if rol != "admin" then (db, .forbidden)
  else
    ({ db with configuracion := db.configuracion.map fun kv =>
        if kv.1 == "precio_cita" then (kv.1, nuevo_precio) else kv }, .ok ())

/-- Handler for `PUT /api/admin/iva`:
`UPDATE configuracion SET valor = $1 WHERE clave = 'iva'`. -/
def adminIvaPut (db : DB) (rol : String) (nuevo_iva : String) :
    DB × Gate Unit :=
  if rol != "admin" then (db, .forbidden)
  else
    ({ db with configuracion := db.configuracion.map fun kv =>
        if kv.1 == "iva" then (kv.1, nuevo_iva) else kv }, .ok ())

/-- Handler for `GET /api/admin/facturas`: invoices joined with the user handle, ordered
by `fecha` descending. -/
def adminFacturasGet (db : DB) (rol : String) :
    DB × Gate (List (Nat × String × String × Rat × Rat × Rat)) :=
  if rol != "admin" then (db, .forbidden)
  else
    let rows := db.facturas.filterMap fun f =>
      match db.usuarios.find? (fun u => u.id == f.usuario_id) with
      | some u => some (f.id, u.usuario, f.fecha, f.subtotal, f.iva, f.total)
      | none => none
    (db, .ok (rows.mergeSort fun a b => decide (b.2.2.1 ≤ a.2.2.1)))

/-- Handler for `GET /api/admin/soporte`: support messages joined with the user handle,
newest first. -/
def adminSoporteGet (db : DB) (rol : String) :
    DB × Gate (List (Nat × String × String × String × String)) :=
  if rol != "admin" then (db, .forbidden)
  else
    let rows := db.soporte.filterMap fun s =>
      match db.usuarios.find? (fun u => u.id == s.usuario_id) with
      | some u => some (s.id, u.usuario, s.asunto, s.mensaje, s.fecha_envio)
      | none => none
    (db, .ok (rows.mergeSort fun a b => decide (b.2.2.2.2 ≤ a.2.2.2.2)))

/-- Header of the invoice-detail report: invoice id, date, totals, and the
client's full name. -/
structure FacturaEncabezado where
  factura_id : Nat
  fecha : String
  subtotal : Rat
  iva : Rat
  total : Rat
  cliente : String
deriving DecidableEq, Repr

/-- A line of the invoice-detail report. -/
structure FacturaDetalleRow where
  descripcion : String
  fecha : String
  hora : String
  precio : Rat
deriving DecidableEq, Repr

/-- Handler for `GET /api/admin/facturas/:id`: invoice header joined with the client's
name (404 when no row matches), plus every line joined through
`detalle_factura` to `citas`, `patologias` and `horarios`. -/
def adminFacturasDetalleGet (db : DB) (rol : String) (facturaId : Nat) :
    DB × Gate (Option (FacturaEncabezado × List FacturaDetalleRow)) :=
  if rol != "admin" then (db, .forbidden)
  else
    let encabezado := (db.facturas.find? fun f => f.id == facturaId).bind
      fun f =>
        (db.usuarios.find? fun u => u.id == f.usuario_id).map fun u =>
          { factura_id := f.id, fecha := f.fecha, subtotal := f.subtotal,
            iva := f.iva, total := f.total,
            cliente := u.nombres ++ " " ++ u.apellidos : FacturaEncabezado }
    match encabezado with
    | none => (db, .ok none)
    | some enc =>
      let detalle := (db.detalle_factura.filter
          fun d => d.factura_id == facturaId).filterMap fun d =>
        match db.citas.find? (fun c => c.id == d.cita_id) with
        | none => none
        | some c =>
          match lookupNombre db.patologias c.patologia_id,
              lookupNombre db.horarios c.hora_id with
          | some p, some h =>
            some { descripcion := p, fecha := c.fecha, hora := h,
                   precio := c.precio : FacturaDetalleRow }
          | _, _ => none
      (db, .ok (some (enc, detalle)))

/-! ## Route tables of the two revisions (for the VAT-read access question)

Each revision registers a fixed set of routes; a route's access level is
`pub` when no middleware guards it, `user` when it runs behind `verifyToken`
only, and `admin` when the handler additionally role-gates on the decoded
`rol` claim. -/

/-- Access level of a registered route. -/
inductive Access where
  | pub
  | user
  | admin
deriving DecidableEq, Repr

/-- A registered route: HTTP method, path pattern, access level. -/
structure Route where
  method : String
  path : String
  access : Access
deriving DecidableEq, Repr

/-- The routes registered by the first revision (lines 1-210 of
server.js). -/
def rev1Routes : List Route :=
  [⟨"GET", "/api/usuarios/tipos-sangre", .pub⟩,
   ⟨"GET", "/api/patologias", .pub⟩,
   ⟨"GET", "/api/horarios", .pub⟩,
   ⟨"GET", "/api/precio-cita", .pub⟩,
   ⟨"POST", "/api/usuarios/registrar", .pub⟩,
   ⟨"POST", "/api/usuarios/login", .pub⟩,
   ⟨"POST", "/api/carrito", .user⟩,
   ⟨"DELETE", "/api/carrito/eliminar", .user⟩,
   ⟨"GET", "/api/carrito", .user⟩,
   ⟨"POST", "/api/facturar", .user⟩,
   ⟨"GET", "/api/admin/citas", .admin⟩,
   ⟨"DELETE", "/api/admin/citas/:id", .admin⟩,
   ⟨"PUT", "/api/admin/precio", .admin⟩,
   ⟨"GET", "/api/admin/facturas", .admin⟩,
   ⟨"GET", "/api/admin/soporte", .admin⟩]

/-- The routes registered by the final revision (lines 211-631 of
server.js). -/
def rev2Routes : List Route :=
  [⟨"GET", "/api/usuarios/tipos-sangre", .pub⟩,
   ⟨"GET", "/api/patologias", .pub⟩,
   ⟨"GET", "/api/horarios", .pub⟩,
   ⟨"GET", "/api/precio-cita", .pub⟩,
   ⟨"GET", "/api/configuracion/iva", .pub⟩,
   ⟨"POST", "/api/usuarios/registrar", .pub⟩,
   ⟨"POST", "/api/usuarios/login", .pub⟩,
   ⟨"POST", "/api/carrito", .user⟩,
   ⟨"DELETE", "/api/carrito/eliminar", .user⟩,
   ⟨"GET", "/api/carrito", .user⟩,
   ⟨"POST", "/api/facturar", .user⟩,
   ⟨"GET", "/api/citas/ocupadas", .pub⟩,
   ⟨"GET", "/api/carrito/usuario", .user⟩,
   ⟨"POST", "/api/soporte", .user⟩,
   ⟨"GET", "/api/admin/usuarios", .admin⟩,
   ⟨"DELETE", "/api/admin/usuarios/:id", .admin⟩,
   ⟨"POST", "/api/admin/patologias", .admin⟩,
   ⟨"DELETE", "/api/admin/patologias/:id", .admin⟩,
   ⟨"POST", "/api/admin/horarios", .admin⟩,
   ⟨"DELETE", "/api/admin/horarios/:id", .admin⟩,
   ⟨"GET", "/api/admin/facturas/:id", .admin⟩,
   ⟨"GET", "/api/admin/citas", .admin⟩,
   ⟨"DELETE", "/api/admin/citas/:id", .admin⟩,
   ⟨"PUT", "/api/admin/precio", .admin⟩,
   ⟨"GET", "/api/admin/facturas", .admin⟩,
   ⟨"GET", "/api/admin/soporte", .admin⟩,
   ⟨"PUT", "/api/admin/iva", .admin⟩,
   ⟨"GET", "/api/usuarios/existe/:usuario", .pub⟩]

/-- Access level of a route within a revision's table, `none` when the
revision does not register the route at all (the framework then answers its
default 404). -/
def routeAccess (routes : List Route) (method path : String) :
    Option Access :=
  (routes.find? fun r => r.method == method && r.path == path).map
    Route.access

/-! ## Characterisation of the checkout loop

`newCitas`/`newDetalles` compute, independently of the threaded database,
exactly the appointment and invoice-line rows the loop appends, given the
failure oracles, the iteration counter `i` and the next free appointment id
`nid`; `okCount` counts successful appointment inserts (each consumes one
id). -/

/-- The appointment rows the checkout loop appends. -/
def newCitas (citaFail : Nat → Bool) (usuario_id : Nat) (precio : Rat) :
    List CartEntry → Nat → Nat → List Cita
  | [], _, _ => []
  | c :: rest, i, nid =>
    if citaFail i then newCitas citaFail usuario_id precio rest (i + 1) nid
    else
      { id := nid, usuario_id := usuario_id, patologia_id := c.patologia_id,
        fecha := c.fecha, hora_id := c.hora_id, precio := precio } ::
        newCitas citaFail usuario_id precio rest (i + 1) (nid + 1)

/-- The invoice-line rows the checkout loop appends. -/
def newDetalles (citaFail detalleFail : Nat → Bool) (factura_id : Nat) :
    List CartEntry → Nat → Nat → List Detalle
  | [], _, _ => []
  | _ :: rest, i, nid =>
    if citaFail i then
      newDetalles citaFail detalleFail factura_id rest (i + 1) nid
    else if detalleFail i then
      newDetalles citaFail detalleFail factura_id rest (i + 1) (nid + 1)
    else
      { factura_id := factura_id, cita_id := nid } ::
        newDetalles citaFail detalleFail factura_id rest (i + 1) (nid + 1)

/-- Number of loop iterations whose appointment insert succeeds. -/
def okCount (citaFail : Nat → Bool) : List CartEntry → Nat → Nat
  | [], _ => 0
  | _ :: rest, i =>
    if citaFail i then okCount citaFail rest (i + 1)
    else okCount citaFail rest (i + 1) + 1

theorem facturarLoop_facturas (cf df : Nat → Bool) (uid fid : Nat)
    (precio : Rat) (l : List CartEntry) (i : Nat) (db : DB) :
    (facturarLoop cf df uid fid precio l i db).facturas = db.facturas := by
  induction l generalizing i db with
  | nil => rfl
  | cons c rest ih =>
    simp only [facturarLoop]
    by_cases h1 : cf i <;> by_cases h2 : df i <;> simp [h1, h2, ih]

theorem facturarLoop_carrito (cf df : Nat → Bool) (uid fid : Nat)
    (precio : Rat) (l : List CartEntry) (i : Nat) (db : DB) :
    (facturarLoop cf df uid fid precio l i db).carrito = db.carrito := by
  induction l generalizing i db with
  | nil => rfl
  | cons c rest ih =>
    simp only [facturarLoop]
    by_cases h1 : cf i <;> by_cases h2 : df i <;> simp [h1, h2, ih]

theorem facturarLoop_citas (cf df : Nat → Bool) (uid fid : Nat)
    (precio : Rat) (l : List CartEntry) (i : Nat) (db : DB) :
    (facturarLoop cf df uid fid precio l i db).citas =
      db.citas ++ newCitas cf uid precio l i db.nextCitaId := by
  induction l generalizing i db with
  | nil => simp [facturarLoop, newCitas]
  | cons c rest ih =>
    simp only [facturarLoop, newCitas]
    by_cases h1 : cf i
    · simp [h1, ih]
    · by_cases h2 : df i <;> simp [h1, h2, ih]

theorem facturarLoop_nextCitaId (cf df : Nat → Bool) (uid fid : Nat)
    (precio : Rat) (l : List CartEntry) (i : Nat) (db : DB) :
    (facturarLoop cf df uid fid precio l i db).nextCitaId =
      db.nextCitaId + okCount cf l i := by
  induction l generalizing i db with
  | nil => simp [facturarLoop, okCount]
  | cons c rest ih =>
    simp only [facturarLoop, okCount]
    by_cases h1 : cf i
    · simp [h1, ih]
    · by_cases h2 : df i <;> simp [h1, h2, ih] <;> omega

theorem facturarLoop_detalle (cf df : Nat → Bool) (uid fid : Nat)
    (precio : Rat) (l : List CartEntry) (i : Nat) (db : DB) :
    (facturarLoop cf df uid fid precio l i db).detalle_factura =
      db.detalle_factura ++ newDetalles cf df fid l i db.nextCitaId := by
  induction l generalizing i db with
  | nil => simp [facturarLoop, newDetalles]
  | cons c rest ih =>
    simp only [facturarLoop, newDetalles]
    by_cases h1 : cf i
    · simp [h1, ih]
    · by_cases h2 : df i <;> simp [h1, h2, ih]

/-- Without failures, the loop creates one appointment per cart entry,
copying its pathology, date and slot and pricing it at `precio`. -/
theorem newCitas_noFail_map (uid : Nat) (precio : Rat) (l : List CartEntry)
    (i nid : Nat) :
    (newCitas noFail uid precio l i nid).map
        (fun c => (c.usuario_id, c.patologia_id, c.fecha, c.hora_id,
          c.precio)) =
      l.map (fun c => (uid, c.patologia_id, c.fecha, c.hora_id, precio)) := by
  induction l generalizing i nid with
  | nil => rfl
  | cons c rest ih => simp [newCitas, noFail, ih]

/-- Without failures, one appointment row per cart entry. -/
theorem newCitas_noFail_length (uid : Nat) (precio : Rat)
    (l : List CartEntry) (i nid : Nat) :
    (newCitas noFail uid precio l i nid).length = l.length := by
  induction l generalizing i nid with
  | nil => rfl
  | cons c rest ih => simp [newCitas, noFail, ih]

/-- Without failures, every iteration consumes one appointment id. -/
theorem okCount_noFail (l : List CartEntry) (i : Nat) :
    okCount noFail l i = l.length := by
  induction l generalizing i with
  | nil => rfl
  | cons c rest ih => simp [okCount, noFail, ih]

/-- Without failures, every invoice line references the one new invoice. -/
theorem newDetalles_noFail_facturaId (fid : Nat) (l : List CartEntry)
    (i nid : Nat) :
    (newDetalles noFail noFail fid l i nid).map Detalle.factura_id =
      List.replicate l.length fid := by
  induction l generalizing i nid with
  | nil => rfl
  | cons c rest ih => simp [newDetalles, noFail, ih, List.replicate_succ]

/-- Without failures, the invoice lines reference exactly the ids of the
newly created appointments, in order. -/
theorem newDetalles_noFail_citaId (uid fid : Nat) (precio : Rat)
    (l : List CartEntry) (i nid : Nat) :
    (newDetalles noFail noFail fid l i nid).map Detalle.cita_id =
      (newCitas noFail uid precio l i nid).map Cita.id := by
  induction l generalizing i nid with
  | nil => rfl
  | cons c rest ih => simp [newDetalles, newCitas, noFail, ih]

/-- Without failures, the created appointment prices sum to
`l.length * precio`. -/
theorem newCitas_noFail_sum (uid : Nat) (precio : Rat) (l : List CartEntry)
    (i nid : Nat) :
    ((newCitas noFail uid precio l i nid).map Cita.precio).sum =
      l.length * precio := by
  induction l generalizing i nid with
  | nil => simp [newCitas]
  | cons c rest ih =>
    simp [newCitas, noFail, ih]
    ring

/-- With an arbitrary failure oracle, the loop creates appointment rows for
exactly the iterations whose appointment insert does not fail, still copying
each surviving entry's pathology, date and slot. -/
theorem newCitas_map (cf : Nat → Bool) (uid : Nat) (precio : Rat)
    (l : List CartEntry) (i nid : Nat) :
    (newCitas cf uid precio l i nid).map
        (fun c => (c.usuario_id, c.patologia_id, c.fecha, c.hora_id,
          c.precio)) =
      ((l.enumFrom i).filter (fun q => !cf q.1)).map
        (fun q => (uid, q.2.patologia_id, q.2.fecha, q.2.hora_id,
          precio)) := by
  induction l generalizing i nid with
  | nil => rfl
  | cons c rest ih =>
    simp only [newCitas, List.enumFrom_cons]
    by_cases h1 : cf i <;> simp [h1, ih]

/-- With arbitrary failure oracles, one invoice line per iteration in which
both inserts succeed. -/
theorem newDetalles_length (cf df : Nat → Bool) (fid : Nat)
    (l : List CartEntry) (i nid : Nat) :
    (newDetalles cf df fid l i nid).length =
      ((l.enumFrom i).filter (fun q => !cf q.1 && !df q.1)).length := by
  induction l generalizing i nid with
  | nil => rfl
  | cons c rest ih =>
    simp only [newDetalles, List.enumFrom_cons]
    by_cases h1 : cf i
    · simp [h1, ih]
    · by_cases h2 : df i <;> simp [h1, h2, ih]

/-! ## Sample database states used by the witnesses -/

/-- A user of the default role whose stored secret is the bcrypt hash of
`"pw1"`. -/
def anaRow : Usuario :=
  { id := 7, nombres := "Ana", apellidos := "Mora", telefono := "099",
    email := "ana@x.ec", fecha_nacimiento := "1990-01-01",
    tipo_sangre_id := 1, usuario := "ana", contrasena := bcryptHash 10 "pw1",
    rol := "paciente" }

/-- The single cart entry of the sample database. -/
def entrySample : CartEntry :=
  { id := 1, usuario_id := 7, patologia_id := 3, fecha := "2024-05-01",
    hora_id := 2 }

/-- A sample database: user `ana` (id 7) has one cart entry
(pathology 3, date 2024-05-01, slot 2). -/
def dbSample : DB :=
  { usuarios := [anaRow],
    patologias := [(3, "Cardiologia")],
    horarios := [(2, "09:00")],
    carrito := [entrySample],
    citas := [],
    facturas := [],
    detalle_factura := [],
    soporte := [],
    configuracion := [("precio_cita", "20"), ("iva", "0.15")],
    defaultRol := "paciente",
    hoy := "2024-05-02",
    nextUsuarioId := 8, nextCarritoId := 2, nextCitaId := 1,
    nextFacturaId := 1, nextPatologiaId := 4, nextHorarioId := 3 }

/-- A sample database with a two-entry cart for user 7, used to exercise the
failure-swallowing path of checkout. -/
def dbTwo : DB :=
  { dbSample with
    carrito := [{ id := 1, usuario_id := 7, patologia_id := 3,
                  fecha := "2024-05-01", hora_id := 2 },
                { id := 2, usuario_id := 7, patologia_id := 3,
                  fecha := "2024-05-03", hora_id := 2 }],
    nextCarritoId := 3 }

/-! ## Claim theorems -/

/-- A bcrypt hash is never the plaintext it hashes: the digest carries the
`$2b$<cost>$` prefix, so it is strictly longer than the plaintext. -/
theorem bcryptHash_ne (cost : Nat) (p : String) : bcryptHash cost p ≠ p := by
  intro hEq
  have hl := congrArg String.length hEq
  simp only [bcryptHash, String.length_append] at hl
  have h4 : "$2b$".length = 4 := rfl
  have h1 : "$".length = 1 := rfl
  rw [h4, h1] at hl
  omega

/-- C2.  For every authenticated caller whose cart is empty, checkout
(`POST /api/facturar`, final contract) responds 400 and the database state is
unchanged: no Invoice, Appointment or InvoiceLine row is created. -/
theorem facturar_emptyCart_spec (cf df : Nat → Bool) (db : DB) (uid : Nat)
    (subtotal iva total : Rat)
    (h : db.carrito.filter (fun c => c.usuario_id == uid) = []) :
    facturar cf df db uid subtotal iva total = (db, .emptyCart) ∧
      FacturarResult.emptyCart.status = 400 := by
  refine ⟨?_, rfl⟩
  simp [facturar, h]

/-- Witness for C2: user 1 has no cart entries in `dbSample` (only user 7
does), so checkout answers 400 and returns the database unchanged. -/
theorem facturar_emptyCart_witness :
    facturar noFail noFail dbSample 1 20 3 23 =
        (dbSample, FacturarResult.emptyCart) ∧
      FacturarResult.emptyCart.status = 400 :=
  facturar_emptyCart_spec noFail noFail dbSample 1 20 3 23 (by decide)

/-- C10.  In the final-contract checkout the supplied subtotal, VAT and
total are stored verbatim in the created Invoice row and the supplied total
is echoed in the success response, for every choice of the three values —
the handler never validates that total = subtotal + VAT, nor that the VAT or
subtotal match the configured rate and price. -/
theorem facturar_verbatim_totals_spec (db : DB) (uid : Nat)
    (subtotal iva total : Rat) (db' : DB) (r : FacturarResult)
    (h : db.carrito.filter (fun c => c.usuario_id == uid) ≠ [])
    (hr : facturar noFail noFail db uid subtotal iva total = (db', r)) :
    db'.facturas = db.facturas ++
        [{ id := db.nextFacturaId, usuario_id := uid, fecha := db.hoy,
           subtotal := subtotal, iva := iva, total := total }] ∧
      r = .ok total ∧ r.status = 200 := by
  rw [facturar] at hr
  simp only [List.length_eq_zero] at hr
  rw [if_neg h] at hr
  obtain ⟨hdb, hres⟩ := Prod.mk.injEq .. ▸ hr
  subst hdb hres
  refine ⟨?_, rfl, rfl⟩
  rw [facturarLoop_facturas]

/-- C1.  Checkout on a non-empty cart (final contract, supplied totals):
exactly one Invoice row is created with the supplied totals; exactly one
Appointment row per prior CartEntry of the caller, copying that entry's
pathology, date and slot and priced at subtotal divided by the number of
cart entries; one InvoiceLine per entry linking the new Invoice to the new
Appointment; all of the caller's CartEntry rows are deleted; and the created
Appointment prices sum to the supplied subtotal (exactly, prices being
rationals here). -/
theorem facturar_checkout_spec (db : DB) (uid : Nat)
    (subtotal iva total : Rat) (entries : List CartEntry) (db' : DB)
    (r : FacturarResult)
    (he : db.carrito.filter (fun c => c.usuario_id == uid) = entries)
    (h : entries ≠ [])
    (hr : facturar noFail noFail db uid subtotal iva total = (db', r)) :
    r = .ok total ∧ r.status = 200 ∧
      db'.facturas = db.facturas ++
        [{ id := db.nextFacturaId, usuario_id := uid, fecha := db.hoy,
           subtotal := subtotal, iva := iva, total := total }] ∧
      db'.citas.length = db.citas.length + entries.length ∧
      (db'.citas.drop db.citas.length).map
          (fun c => (c.usuario_id, c.patologia_id, c.fecha, c.hora_id,
            c.precio)) =
        entries.map (fun c => (uid, c.patologia_id, c.fecha, c.hora_id,
          subtotal / (entries.length : Rat))) ∧
      (db'.detalle_factura.drop db.detalle_factura.length).map
          Detalle.factura_id =
        List.replicate entries.length db.nextFacturaId ∧
      (db'.detalle_factura.drop db.detalle_factura.length).map
          Detalle.cita_id =
        (db'.citas.drop db.citas.length).map Cita.id ∧
      db'.carrito = db.carrito.filter (fun c => !(c.usuario_id == uid)) ∧
      ((db'.citas.drop db.citas.length).map Cita.precio).sum = subtotal := by
  subst he
  rw [facturar] at hr
  simp only [List.length_eq_zero] at hr
  rw [if_neg h] at hr
  obtain ⟨hdb, hres⟩ := Prod.mk.injEq .. ▸ hr
  subst hdb hres
  have hn : ((db.carrito.filter fun c => c.usuario_id == uid).length : Rat)
      ≠ 0 := by
    exact_mod_cast fun hl => h (List.length_eq_zero.mp (by exact_mod_cast hl))
  refine ⟨rfl, rfl, ?_, ?_, ?_, ?_, ?_, ?_, ?_⟩
  · simp [facturarLoop_facturas]
  · simp [facturarLoop_citas, newCitas_noFail_length]
  · simp [facturarLoop_citas, newCitas_noFail_map]
  · simp [facturarLoop_detalle, newDetalles_noFail_facturaId]
  · simp only [facturarLoop_detalle, facturarLoop_citas]
    simp only [List.drop_left]
    exact newDetalles_noFail_citaId uid db.nextFacturaId
      (subtotal / ((db.carrito.filter fun c => c.usuario_id == uid).length :
        Rat)) _ 0 _
  · simp [facturarLoop_carrito]
  · simp only [facturarLoop_citas]
    simp only [List.drop_left]
    rw [newCitas_noFail_sum, mul_comm, div_mul_cancel₀ _ hn]

/-- Witness for C1: checkout of `dbSample` (one cart entry for user 7) with
supplied totals 20 / 3 / 23. -/
theorem facturar_checkout_witness :
    (facturar noFail noFail dbSample 7 20 3 23).2 = .ok 23 ∧
      (facturar noFail noFail dbSample 7 20 3 23).2.status = 200 ∧
      (facturar noFail noFail dbSample 7 20 3 23).1.facturas =
        dbSample.facturas ++
          [{ id := dbSample.nextFacturaId, usuario_id := 7,
             fecha := dbSample.hoy, subtotal := 20, iva := 3,
             total := 23 }] ∧
      (facturar noFail noFail dbSample 7 20 3 23).1.citas.length =
        dbSample.citas.length + [entrySample].length ∧
      ((facturar noFail noFail dbSample 7 20 3 23).1.citas.drop
          dbSample.citas.length).map
          (fun c => (c.usuario_id, c.patologia_id, c.fecha, c.hora_id,
            c.precio)) =
        [entrySample].map
          (fun c => (7, c.patologia_id, c.fecha, c.hora_id,
            20 / (([entrySample].length : Nat) : Rat))) ∧
      ((facturar noFail noFail dbSample 7 20 3 23).1.detalle_factura.drop
          dbSample.detalle_factura.length).map Detalle.factura_id =
        List.replicate [entrySample].length
          dbSample.nextFacturaId ∧
      ((facturar noFail noFail dbSample 7 20 3 23).1.detalle_factura.drop
          dbSample.detalle_factura.length).map Detalle.cita_id =
        ((facturar noFail noFail dbSample 7 20 3 23).1.citas.drop
          dbSample.citas.length).map Cita.id ∧
      (facturar noFail noFail dbSample 7 20 3 23).1.carrito =
        dbSample.carrito.filter (fun c => !(c.usuario_id == 7)) ∧
      (((facturar noFail noFail dbSample 7 20 3 23).1.citas.drop
          dbSample.citas.length).map Cita.precio).sum = 20 :=
  facturar_checkout_spec dbSample 7 20 3 23 [entrySample]
    (facturar noFail noFail dbSample 7 20 3 23).1
    (facturar noFail noFail dbSample 7 20 3 23).2
    (by decide) (by decide) rfl

/-- C3.  If individual Appointment/InvoiceLine inserts fail during checkout
(modelled by the failure oracles `cf`/`df`), the loop continues with the
remaining cart entries: the already-created Invoice stays in place with no
rollback, an Appointment row is created for exactly the iterations whose
appointment insert did not fail (still copying the entry's data), an
InvoiceLine for exactly the iterations where both inserts succeeded, the
caller's cart is still deleted at the end, and the handler still responds
with success, echoing the supplied total. -/
theorem facturar_lineFailure_spec (cf df : Nat → Bool) (db : DB)
    (uid : Nat) (subtotal iva total : Rat) (entries : List CartEntry)
    (db' : DB) (r : FacturarResult)
    (he : db.carrito.filter (fun c => c.usuario_id == uid) = entries)
    (h : entries ≠ [])
    (hr : facturar cf df db uid subtotal iva total = (db', r)) :
    r = .ok total ∧ r.status = 200 ∧
      db'.facturas = db.facturas ++
        [{ id := db.nextFacturaId, usuario_id := uid, fecha := db.hoy,
           subtotal := subtotal, iva := iva, total := total }] ∧
      db'.carrito = db.carrito.filter (fun c => !(c.usuario_id == uid)) ∧
      db'.citas = db.citas ++
        newCitas cf uid (subtotal / (entries.length : Rat)) entries 0
          db.nextCitaId ∧
      db'.detalle_factura = db.detalle_factura ++
        newDetalles cf df db.nextFacturaId entries 0 db.nextCitaId ∧
      (db'.citas.drop db.citas.length).map
          (fun c => (c.usuario_id, c.patologia_id, c.fecha, c.hora_id,
            c.precio)) =
        (entries.enum.filter (fun q => !cf q.1)).map
          (fun q => (uid, q.2.patologia_id, q.2.fecha, q.2.hora_id,
            subtotal / (entries.length : Rat))) ∧
      (db'.detalle_factura.drop db.detalle_factura.length).length =
        (entries.enum.filter (fun q => !cf q.1 && !df q.1)).length := by
  subst he
  rw [facturar] at hr
  simp only [List.length_eq_zero] at hr
  rw [if_neg h] at hr
  obtain ⟨hdb, hres⟩ := Prod.mk.injEq .. ▸ hr
  subst hdb hres
  refine ⟨rfl, rfl, ?_, ?_, ?_, ?_, ?_, ?_⟩
  · simp [facturarLoop_facturas]
  · simp [facturarLoop_carrito]
  · simp [facturarLoop_citas]
  · simp [facturarLoop_detalle]
  · simp [facturarLoop_citas, newCitas_map, List.enum]
  · simp [facturarLoop_detalle, newDetalles_length, List.enum]

/-- Witness for C3: checkout of the two-entry cart in `dbTwo` where the
appointment insert of iteration 0 fails; the run still succeeds, keeps the
invoice, deletes the cart, creates the appointment of iteration 1 only, and
creates one invoice line. -/
theorem facturar_lineFailure_witness :
    (facturar (fun i => i == 0) noFail dbTwo 7 40 6 46).2 = .ok 46 ∧
      (facturar (fun i => i == 0) noFail dbTwo 7 40 6 46).2.status = 200 ∧
      (facturar (fun i => i == 0) noFail dbTwo 7 40 6 46).1.facturas =
        dbTwo.facturas ++
          [{ id := dbTwo.nextFacturaId, usuario_id := 7, fecha := dbTwo.hoy,
             subtotal := 40, iva := 6, total := 46 }] ∧
      (facturar (fun i => i == 0) noFail dbTwo 7 40 6 46).1.carrito =
        dbTwo.carrito.filter (fun c => !(c.usuario_id == 7)) ∧
      (facturar (fun i => i == 0) noFail dbTwo 7 40 6 46).1.citas =
        dbTwo.citas ++
          newCitas (fun i => i == 0) 7 (40 / ((dbTwo.carrito.length : Nat) :
            Rat)) dbTwo.carrito 0 dbTwo.nextCitaId ∧
      (facturar (fun i => i == 0) noFail dbTwo 7 40 6 46).1.detalle_factura =
        dbTwo.detalle_factura ++
          newDetalles (fun i => i == 0) noFail dbTwo.nextFacturaId
            dbTwo.carrito 0 dbTwo.nextCitaId ∧
      ((facturar (fun i => i == 0) noFail dbTwo 7 40 6 46).1.citas.drop
          dbTwo.citas.length).map
          (fun c => (c.usuario_id, c.patologia_id, c.fecha, c.hora_id,
            c.precio)) =
        (dbTwo.carrito.enum.filter (fun q => !(q.1 == 0))).map
          (fun q => (7, q.2.patologia_id, q.2.fecha, q.2.hora_id,
            40 / ((dbTwo.carrito.length : Nat) : Rat))) ∧
      ((facturar (fun i => i == 0) noFail dbTwo 7 40 6
          46).1.detalle_factura.drop dbTwo.detalle_factura.length).length =
        (dbTwo.carrito.enum.filter
          (fun q => !(q.1 == 0) && !noFail q.1)).length :=
  facturar_lineFailure_spec (fun i => i == 0) noFail dbTwo 7 40 6 46
    dbTwo.carrito
    (facturar (fun i => i == 0) noFail dbTwo 7 40 6 46).1
    (facturar (fun i => i == 0) noFail dbTwo 7 40 6 46).2
    (by decide) (by decide) rfl

/-- Witness for C10: checkout of `dbSample` for user 7 with deliberately
inconsistent totals (subtotal 100, VAT 999, total 1) still succeeds, stores
them verbatim and echoes total 1. -/
theorem facturar_verbatim_totals_witness :
    (facturar noFail noFail dbSample 7 100 999 1).1.facturas =
        dbSample.facturas ++
          [{ id := dbSample.nextFacturaId, usuario_id := 7,
             fecha := dbSample.hoy, subtotal := 100, iva := 999,
             total := 1 }] ∧
      (facturar noFail noFail dbSample 7 100 999 1).2 = .ok 1 ∧
      (facturar noFail noFail dbSample 7 100 999 1).2.status = 200 :=
  facturar_verbatim_totals_spec dbSample 7 100 999 1
    (facturar noFail noFail dbSample 7 100 999 1).1
    (facturar noFail noFail dbSample 7 100 999 1).2
    (by decide) rfl

/-- C4.  Add-to-cart (final revision): a (date, slot) already in the
caller's own cart is rejected with 400 and nothing is inserted; a (date,
slot) already held by a confirmed Appointment of any user is rejected with
400 and nothing is inserted; otherwise the CartEntry is inserted. -/
theorem carritoAdd_spec (db : DB) (uid pid : Nat) (fecha : String)
    (hid : Nat) :
    (db.carrito.filter (fun c => c.usuario_id == uid && c.fecha == fecha &&
        c.hora_id == hid) ≠ [] →
      carritoAdd db uid pid fecha hid = (db, .yaEnCarrito) ∧
        CarritoAddResult.yaEnCarrito.status = 400) ∧
    (db.carrito.filter (fun c => c.usuario_id == uid && c.fecha == fecha &&
        c.hora_id == hid) = [] →
      db.citas.filter (fun c => c.fecha == fecha && c.hora_id == hid) ≠
        [] →
      carritoAdd db uid pid fecha hid = (db, .horaReservada) ∧
        CarritoAddResult.horaReservada.status = 400) ∧
    (db.carrito.filter (fun c => c.usuario_id == uid && c.fecha == fecha &&
        c.hora_id == hid) = [] →
      db.citas.filter (fun c => c.fecha == fecha && c.hora_id == hid) =
        [] →
      carritoAdd db uid pid fecha hid =
        ({ db with
            carrito := db.carrito ++
              [{ id := db.nextCarritoId, usuario_id := uid,
                 patologia_id := pid, fecha := fecha, hora_id := hid }],
            nextCarritoId := db.nextCarritoId + 1 }, .added)) := by
  refine ⟨fun h1 => ⟨?_, rfl⟩, fun h1 h2 => ⟨?_, rfl⟩, fun h1 h2 => ?_⟩
  · simp [carritoAdd, List.length_pos, h1]
  · simp [carritoAdd, List.length_pos, h1, h2]
  · simp [carritoAdd, List.length_pos, h1, h2]

/-- Witness for C4: adding pathology 3 / date 2024-06-01 / slot 2 for user
7 to `dbSample` (no such cart entry, no confirmed appointment) inserts the
CartEntry. -/
theorem carritoAdd_witness :
    carritoAdd dbSample 7 3 "2024-06-01" 2 =
      ({ dbSample with
          carrito := dbSample.carrito ++
            [{ id := dbSample.nextCarritoId, usuario_id := 7,
               patologia_id := 3, fecha := "2024-06-01", hora_id := 2 }],
          nextCarritoId := dbSample.nextCarritoId + 1 },
        CarritoAddResult.added) :=
  (carritoAdd_spec dbSample 7 3 "2024-06-01" 2).2.2 (by decide) (by decide)

/-- C5.  Every `/api/admin/*` handler, given a decoded role claim different
from `admin`, answers 403 and returns the database unchanged, whatever its
payload. -/
theorem admin_forbidden_spec (db : DB) (rol : String) (h : rol ≠ "admin") :
    adminUsuariosGet db rol = (db, .forbidden) ∧
    (∀ id, adminUsuariosDelete db rol id = (db, .forbidden)) ∧
    (∀ nombre, adminPatologiasPost db rol nombre = (db, .forbidden)) ∧
    (∀ id, adminPatologiasDelete db rol id = (db, .forbidden)) ∧
    (∀ hora, adminHorariosPost db rol hora = (db, .forbidden)) ∧
    (∀ id, adminHorariosDelete db rol id = (db, .forbidden)) ∧
    adminCitasGet db rol = (db, .forbidden) ∧
    (∀ id, adminCitasDelete db rol id = (db, .forbidden)) ∧
    (∀ p, adminPrecioPut db rol p = (db, .forbidden)) ∧
    (∀ v, adminIvaPut db rol v = (db, .forbidden)) ∧
    adminFacturasGet db rol = (db, .forbidden) ∧
    adminSoporteGet db rol = (db, .forbidden) ∧
    (∀ id, adminFacturasDetalleGet db rol id = (db, .forbidden)) ∧
    (Gate.forbidden : Gate Unit).status = 403 := by
  have hb : (rol != "admin") = true := by simp [h]
  exact ⟨by simp [adminUsuariosGet, hb],
    fun id => by simp [adminUsuariosDelete, hb],
    fun nombre => by simp [adminPatologiasPost, hb],
    fun id => by simp [adminPatologiasDelete, hb],
    fun hora => by simp [adminHorariosPost, hb],
    fun id => by simp [adminHorariosDelete, hb],
    by simp [adminCitasGet, hb],
    fun id => by simp [adminCitasDelete, hb],
    fun p => by simp [adminPrecioPut, hb],
    fun v => by simp [adminIvaPut, hb],
    by simp [adminFacturasGet, hb],
    by simp [adminSoporteGet, hb],
    fun id => by simp [adminFacturasDetalleGet, hb],
    rfl⟩

/-- Witness for C5: the decoded role `paciente` is rejected with 403 on
every admin route of `dbSample`, which is returned unchanged. -/
theorem admin_forbidden_witness :
    adminUsuariosGet dbSample "paciente" = (dbSample, .forbidden) ∧
    (∀ id, adminUsuariosDelete dbSample "paciente" id =
      (dbSample, .forbidden)) ∧
    (∀ nombre, adminPatologiasPost dbSample "paciente" nombre =
      (dbSample, .forbidden)) ∧
    (∀ id, adminPatologiasDelete dbSample "paciente" id =
      (dbSample, .forbidden)) ∧
    (∀ hora, adminHorariosPost dbSample "paciente" hora =
      (dbSample, .forbidden)) ∧
    (∀ id, adminHorariosDelete dbSample "paciente" id =
      (dbSample, .forbidden)) ∧
    adminCitasGet dbSample "paciente" = (dbSample, .forbidden) ∧
    (∀ id, adminCitasDelete dbSample "paciente" id =
      (dbSample, .forbidden)) ∧
    (∀ p, adminPrecioPut dbSample "paciente" p = (dbSample, .forbidden)) ∧
    (∀ v, adminIvaPut dbSample "paciente" v = (dbSample, .forbidden)) ∧
    adminFacturasGet dbSample "paciente" = (dbSample, .forbidden) ∧
    adminSoporteGet dbSample "paciente" = (dbSample, .forbidden) ∧
    (∀ id, adminFacturasDetalleGet dbSample "paciente" id =
      (dbSample, .forbidden)) ∧
    (Gate.forbidden : Gate Unit).status = 403 :=
  admin_forbidden_spec dbSample "paciente" (by decide)

/-- C6.  Login: an absent handle answers 404 (`not found`); an existing
handle with a secret whose hash does not match answers 401
(`unauthorized`), never 404; a matching secret issues the signed 8-hour
token carrying the user's id and role. -/
theorem login_spec (secret now : Nat) (db : DB)
    (usuario contrasena : String) :
    (db.usuarios.find? (fun u => u.usuario == usuario) = none →
      login secret now db usuario contrasena = .notFound ∧
        LoginResult.notFound.status = 404) ∧
    (∀ user, db.usuarios.find? (fun u => u.usuario == usuario) =
        some user →
      bcryptCompare contrasena user.contrasena = false →
      login secret now db usuario contrasena = .wrongPassword ∧
        LoginResult.wrongPassword.status = 401 ∧
        LoginResult.wrongPassword ≠ LoginResult.notFound) ∧
    (∀ user, db.usuarios.find? (fun u => u.usuario == usuario) =
        some user →
      bcryptCompare contrasena user.contrasena = true →
      login secret now db usuario contrasena =
          .ok (jwtSign secret user.id user.rol now) user.nombres ∧
        (jwtSign secret user.id user.rol now).id = user.id ∧
        (jwtSign secret user.id user.rol now).rol = user.rol ∧
        (jwtSign secret user.id user.rol now).exp = now + 8 * 3600) := by
  refine ⟨fun h => ⟨?_, rfl⟩,
    fun user hu hc => ⟨?_, rfl, by decide⟩,
    fun user hu hc => ⟨?_, rfl, rfl, rfl⟩⟩
  · simp [login, h]
  · simp [login, hu, hc]
  · simp [login, hu, hc]

/-- Witness for C6: in `dbSample`, logging in as `ana` with the plaintext
`pw1` (whose bcrypt hash is the stored secret) issues the signed token. -/
theorem login_witness :
    login 5 1000 dbSample "ana" "pw1" =
        .ok (jwtSign 5 anaRow.id anaRow.rol 1000) anaRow.nombres ∧
      (jwtSign 5 anaRow.id anaRow.rol 1000).id = anaRow.id ∧
      (jwtSign 5 anaRow.id anaRow.rol 1000).rol = anaRow.rol ∧
      (jwtSign 5 anaRow.id anaRow.rol 1000).exp = 1000 + 8 * 3600 :=
  (login_spec 5 1000 dbSample "ana" "pw1").2.2 anaRow (by decide) (by decide)

/-- C7.  A token signed at time T from (id, role) decodes to the same pair
and is accepted by the middleware before T + 8 hours; after T + 8 hours, or
with a signature that does not match the payload and secret, it is rejected
with 403; a request with no token at all is rejected with 401. -/
theorem token_roundtrip_spec (secret id : Nat) (rol : String) (T now : Nat) :
    ((jwtSign secret id rol T).id = id ∧
      (jwtSign secret id rol T).rol = rol) ∧
    (now < T + 8 * 3600 →
      verifyToken secret now (some (jwtSign secret id rol T)) =
        .ok id rol) ∧
    (T + 8 * 3600 ≤ now →
      verifyToken secret now (some (jwtSign secret id rol T)) = .invalid ∧
        AuthResult.invalid.status = 403) ∧
    (∀ t : Jwt, t.sig ≠ jwtSig secret t.id t.rol t.exp →
      verifyToken secret now (some t) = .invalid) ∧
    (verifyToken secret now none = .noToken ∧
      AuthResult.noToken.status = 401) := by
  refine ⟨⟨rfl, rfl⟩, fun h => ?_, fun h => ⟨?_, rfl⟩, fun t ht => ?_,
    rfl, rfl⟩
  · simp [verifyToken, jwtVerify, jwtSign, h]
  · have h' : ¬ now < T + 8 * 3600 := by omega
    simp [verifyToken, jwtVerify, jwtSign, h']
  · simp [verifyToken, jwtVerify, ht]

/-- Witness for C7: the token signed at T = 0 for (id 7, role `admin`) with
secret 5 is accepted at time 100 and decodes to (7, admin); at time 40000
(past the 28800-second window) it is rejected; a missing token is 401. -/
theorem token_roundtrip_witness :
    verifyToken 5 100 (some (jwtSign 5 7 "admin" 0)) =
        AuthResult.ok 7 "admin" ∧
      verifyToken 5 40000 (some (jwtSign 5 7 "admin" 0)) =
        AuthResult.invalid ∧
      verifyToken 5 100 none = AuthResult.noToken :=
  ⟨(token_roundtrip_spec 5 7 "admin" 0 100).2.1 (by decide),
    ((token_roundtrip_spec 5 7 "admin" 0 40000).2.2.1 (by decide)).1,
    (token_roundtrip_spec 5 7 "admin" 0 100).2.2.2.2.1⟩

/-- C8.  A valid registration (fresh handle) stores the bcrypt hash of the
plaintext secret — never the plaintext itself — and a subsequent login with
the same handle and plaintext succeeds, issuing a token for the new user's
id and (default) role. -/
theorem registrar_login_spec (secret now : Nat) (db : DB) (b : RegistroBody)
    (h : db.usuarios.find? (fun u => u.usuario == b.usuario) = none) :
    (registrar db b).usuarios.find? (fun u => u.usuario == b.usuario) =
        some { id := db.nextUsuarioId, nombres := b.nombres,
               apellidos := b.apellidos, telefono := b.telefono,
               email := b.email, fecha_nacimiento := b.fecha_nacimiento,
               tipo_sangre_id := b.tipo_sangre_id, usuario := b.usuario,
               contrasena := bcryptHash 10 b.contrasena,
               rol := db.defaultRol } ∧
      bcryptHash 10 b.contrasena ≠ b.contrasena ∧
      login secret now (registrar db b) b.usuario b.contrasena =
        .ok (jwtSign secret db.nextUsuarioId db.defaultRol now)
          b.nombres := by
  have hfind : (registrar db b).usuarios.find?
      (fun u => u.usuario == b.usuario) =
      some { id := db.nextUsuarioId, nombres := b.nombres,
             apellidos := b.apellidos, telefono := b.telefono,
             email := b.email, fecha_nacimiento := b.fecha_nacimiento,
             tipo_sangre_id := b.tipo_sangre_id, usuario := b.usuario,
             contrasena := bcryptHash 10 b.contrasena,
             rol := db.defaultRol } := by
    simp [registrar, List.find?_append, h]
  refine ⟨hfind, bcryptHash_ne 10 b.contrasena, ?_⟩
  simp [login, hfind, bcryptCompare]

/-- Registration body used by the C8 witness: a fresh handle `luis`. -/
def luisBody : RegistroBody :=
  { nombres := "Luis", apellidos := "Paz", telefono := "098",
    email := "luis@x.ec", fecha_nacimiento := "1985-03-03",
    tipo_sangre_id := 2, usuario := "luis", contrasena := "s3cret" }

/-- Witness for C8: registering `luis` in `dbSample` stores the hash (never
`s3cret`) and a subsequent login as `luis` with `s3cret` issues a token. -/
theorem registrar_login_witness :
    (registrar dbSample luisBody).usuarios.find?
        (fun u => u.usuario == luisBody.usuario) =
        some { id := dbSample.nextUsuarioId, nombres := luisBody.nombres,
               apellidos := luisBody.apellidos,
               telefono := luisBody.telefono, email := luisBody.email,
               fecha_nacimiento := luisBody.fecha_nacimiento,
               tipo_sangre_id := luisBody.tipo_sangre_id,
               usuario := luisBody.usuario,
               contrasena := bcryptHash 10 luisBody.contrasena,
               rol := dbSample.defaultRol } ∧
      bcryptHash 10 luisBody.contrasena ≠ luisBody.contrasena ∧
      login 5 1000 (registrar dbSample luisBody) luisBody.usuario
          luisBody.contrasena =
        .ok (jwtSign 5 dbSample.nextUsuarioId dbSample.defaultRol 1000)
          luisBody.nombres :=
  registrar_login_spec 5 1000 dbSample luisBody (by decide)

/-- C9, counterexample.  The claim says the VAT read endpoint
`GET /api/configuracion/iva` is admin-only in one revision of the program
and public in the other.  It is false: the first revision does not register
the route at all, and the final revision registers it public — it is
admin-only in neither revision. -/
theorem iva_route_access_counterexample :
    ¬ ((routeAccess rev1Routes "GET" "/api/configuracion/iva" =
          some Access.admin ∧
        routeAccess rev2Routes "GET" "/api/configuracion/iva" =
          some Access.pub) ∨
       (routeAccess rev1Routes "GET" "/api/configuracion/iva" =
          some Access.pub ∧
        routeAccess rev2Routes "GET" "/api/configuracion/iva" =
          some Access.admin)) := by
  decide

/-- C9, amended.  `GET /api/configuracion/iva` is public (no authentication
required) in the final revision and absent — not registered at all — in the
first revision. -/
theorem iva_route_access_spec :
    routeAccess rev1Routes "GET" "/api/configuracion/iva" = none ∧
      routeAccess rev2Routes "GET" "/api/configuracion/iva" =
        some Access.pub := by
  decide

end Algologia
